import Mathlib

/-!
Verification of the screen-recorder Electron application.

The development shallowly embeds the main-process code of the repository:
the `save-file` IPC handler (temp-file staging, webm fast path, resolution
normalization, ffmpeg command construction, guaranteed temp cleanup), the
`getVideoInfo` ffprobe wrapper, the `GET_SCREEN_RESOLUTIONS` handler with
its aspect-ratio classification, and the `start-recording` IPC handler of
the main process variant.

Machine numbers are modelled as `Int`; a JavaScript number that may be NaN
(the result of `parseInt` on a non-numeric string) is modelled as
`Option Int` with `none` standing for NaN.  File-system effects are
explicit state passing over the two paths a save call touches (the fresh
temp artifact and the destination), and every fallible I/O step's outcome
is an input to the function, so that behaviour on exception paths is a
theorem, not a side condition.
-/

namespace ScreenRecorder

/-- JavaScript `"…".split(c)` for a one-character separator, on the
character list of the string: every separator occurrence cuts, so the
empty string gives one empty field, `"x"` gives two empty fields. -/
def jsSplit (sep : Char) : List Char → List (List Char)
  | [] => [[]]
  | c :: cs =>
    let r := jsSplit sep cs
    if c = sep then [] :: r
    else (c :: r.headD []) :: r.tail

/-- JavaScript `parseInt(s, 10)`: skip leading whitespace, read an optional
sign, then a maximal digit prefix; NaN (modelled `none`) if no digits. -/
def jsParseIntChars (cs : List Char) : Option Int :=
  let t := cs.dropWhile (fun c => c.isWhitespace)
  let (neg, u) :=
    match t with
    | '-' :: rest => (true, rest)
    | '+' :: rest => (false, rest)
    | _ => (false, t)
  let digits := u.takeWhile (fun c => c.isDigit)
  if digits.isEmpty then none
  else
    let n : Nat := digits.foldl (fun acc c => acc * 10 + (c.toNat - 48)) 0
    some (if neg then -(n : Int) else (n : Int))

/-- JavaScript `x || d` on a possibly-absent number: `undefined`/`null`
(modelled `none`) and `0` are falsy and fall back to the default. -/
def jsOr (x : Option Int) (d : Int) : Int :=
  match x with
  | none => d
  | some v => if v = 0 then d else v

/-- `height % 2 === 0 ? height : height - 1` (main file line 51 and line
127): force an even height as required by the x264 encoder. -/
def evenHeight (h : Int) : Int :=
  if h % 2 = 0 then h else h - 1

/-- `evenHeight` lifted over a possibly-NaN number: in JS, `NaN % 2 === 0`
is false and `NaN - 1` is NaN, so NaN stays NaN. -/
def evenHeightOpt (h : Option Int) : Option Int :=
  match h with
  | none => none
  | some v => some (evenHeight v)

/-- Render a possibly-NaN number the way a JS template literal does. -/
def jsNumStr (x : Option Int) : String :=
  match x with
  | none => "NaN"
  | some v => toString v

/-- The resolution-parsing block of the `save-file` handler (main file
lines 118-129).  `resolution` may be absent (`none`); the empty string is
falsy in JS, so both give the 1920x1080 default.  Otherwise the string is
split at every `x`; only a split into exactly two fields is parsed, and
each field goes through `parseInt`, which yields NaN on a non-numeric
field.  The parsed height is forced even. -/
def parseResolution (r : Option String) : Option Int × Option Int :=
  match r with
  | none => (some 1920, some 1080)
  | some s =>
    if s = "" then (some 1920, some 1080)
    else
      match jsSplit 'x' s.data with
      | [a, b] => (jsParseIntChars a, evenHeightOpt (jsParseIntChars b))
      | _ => (some 1920, some 1080)

/-- `calculateAspectRatio` (main file lines 311-343): reduce width:height
by their GCD (the source's loop is the Euclidean algorithm, i.e.
`Nat.gcd` on absolute values); a zero divisor or a reduction with either
side above 100 falls back to the "16:9" label. -/
def calculateAspect (width height : Int) : String :=
  let divisor : Int := Int.ofNat (Nat.gcd width.natAbs height.natAbs)
  if divisor = 0 then "16:9"
  else
    let ratioW := width / divisor
    let ratioH := height / divisor
    if 100 < ratioW ∨ 100 < ratioH then "16:9"
    else toString ratioW ++ ":" ++ toString ratioH

/-- The aspect-ratio classification of the `GET_SCREEN_RESOLUTIONS`
handler (main file lines 32-48).  The source compares the float
`width / height` against the decimal literals 1.7, 1.8, 1.3, 1.4, 1.5,
1.6, 2.3, 2.4; for positive integer dimensions in any realistic range the
IEEE-double comparisons agree with the exact rational ones (the quotient
of two small integers rounds onto the double nearest a band endpoint only
when it equals that endpoint exactly, where the strict comparison is false
either way), so the bands are modelled exactly with cross-multiplied
integer inequalities. -/
def aspectLabel (width height : Int) : String :=
  if 17 * height < 10 * width ∧ 10 * width < 18 * height then "16:9"
  else if 13 * height < 10 * width ∧ 10 * width < 14 * height then "4:3"
  else if 15 * height < 10 * width ∧ 10 * width < 16 * height then "3:2"
  else if 23 * height < 10 * width ∧ 10 * width < 24 * height then "21:9"
  else calculateAspect width height

/-! ## The `getVideoInfo` ffprobe wrapper (main file lines 223-272) -/

/-- One entry of `metadata.streams` as `getVideoInfo` reads it.  The
`displayAspect` field carries the raw `display_aspect_ratio` string. -/
structure StreamInfo where
  codecType : String
  width : Option Int
  height : Option Int
  displayAspect : Option String
deriving DecidableEq

/-- What the probe resolves with: `width`/`height` (possibly defaulted)
and the display aspect ratio kept as the integer pair whose float quotient
the source computes (that quotient feeds only a `console.log` line). -/
structure VideoInfo where
  width : Option Int
  height : Option Int
  displayAspect : Option (Int × Int)
deriving DecidableEq

/-- The three ways the `ffprobe` callback can go: an error argument, a
metadata object (whose streams the handler searches), or an exception
thrown while reading the metadata (the inner catch). -/
inductive ProbeOutcome where
  | probeErr : ProbeOutcome
  | parseErr : ProbeOutcome
  | metadata (streams : List StreamInfo) : ProbeOutcome
deriving DecidableEq

/-- JavaScript `Number(s)` restricted to the integer strings that occur in
a `display_aspect_ratio` field; the empty string is 0, a non-numeric
string is NaN (`none`).  The value feeds only a logged quotient. -/
def jsNumber (cs : List Char) : Option Int :=
  if cs.isEmpty then some 0
  else if cs.all (fun c => c.isDigit) then jsParseIntChars cs
  else none

/-- `display_aspect_ratio.split(':').map(Number)` destructured to its
first two fields, kept only when both are truthy (`if (w && h)`). -/
def parseDarPair (s : String) : Option (Int × Int) :=
  match jsSplit ':' s.data with
  | a :: b :: _ =>
    match jsNumber a, jsNumber b with
    | some w, some h => if w ≠ 0 ∧ h ≠ 0 then some (w, h) else none
    | _, _ => none
  | _ => none

/-- `getVideoInfo` (main file lines 223-272).  All failure modes (probe
error, metadata parse exception, no video stream) RESOLVE with the safe
1920x1080 fallback; the promise never rejects. -/
def getVideoInfo (p : ProbeOutcome) : VideoInfo :=
  match p with
  | ProbeOutcome.probeErr => { width := some 1920, height := some 1080, displayAspect := none }
  | ProbeOutcome.parseErr => { width := some 1920, height := some 1080, displayAspect := none }
  | ProbeOutcome.metadata streams =>
    match streams.find? (fun s => s.codecType = "video") with
    | none => { width := some 1920, height := some 1080, displayAspect := none }
    | some vs =>
      let width := jsOr vs.width 1920
      let height := jsOr vs.height 1080
      let dar :=
        match vs.displayAspect with
        | some s => parseDarPair s
        | none => none
      { width := some width, height := some height,
        displayAspect :=
          match dar with
          | some pr => some pr
          | none => some (width, height) }

/-! ## The `save-file` IPC handler (main file lines 86-220) -/

/-- The handler's argument object.  `buffer` is `Option` because the
handler guards `!buffer`; bytes are abstracted to a list. -/
structure SaveArgs where
  filePath : String
  buffer : Option (List Nat)
  format : String
  resolution : Option String
  bitrate : Option Int
  preserveAspect : Bool
deriving DecidableEq

/-- Outcomes of the fallible I/O steps of one save call, supplied by the
environment: whether `fs.writeFile`, `fs.stat`, `fs.copyFile`, the ffmpeg
process, and the final `fs.unlink` succeed, and what the transcoder
leaves at the destination when it runs. -/
structure SaveEnv where
  writeOk : Bool
  statOk : Bool
  copyOk : Bool
  ffmpegOk : Bool
  transcodedDest : Option (List Nat)
  unlinkOk : Bool
deriving DecidableEq

/-- The two file paths a save call touches: the freshly named temp
artifact and the destination `filePath`.  `none` means no file exists. -/
structure FS where
  temp : Option (List Nat)
  dest : Option (List Nat)
deriving DecidableEq

/-- The fluent-ffmpeg command the transcode path builds (main file lines
161-173).  The input is the temp artifact (modelled by `FS.temp`); the
remaining configuration is captured field by field. -/
structure FfmpegCmd where
  inputOpts : List String
  videoBitrate : Int
  videoFilters : String
  outputPath : String
  outputOpts : List String
deriving DecidableEq

/-- The handler's result object `{success, error?}`. -/
structure SaveResult where
  success : Bool
  error : Option String
deriving DecidableEq

/-- Everything observable about one save call: the IPC result, the final
file-system state, the ffmpeg command if the transcoder was invoked
(`none` = never invoked), whether `tempPath` was ever assigned (the
`finally` block's guard), and the probed input dimensions, which the
source only interpolates into `console.log` lines. -/
structure SaveOutcome where
  result : SaveResult
  fs : FS
  transcoderCmd : Option FfmpegCmd
  tempPathAssigned : Bool
  logged : Option (Int × Int)
deriving DecidableEq

/-- The try-block of the `save-file` handler (main file lines 88-208),
step by step: empty-buffer guard, temp write, size check, webm fast path,
resolution parsing, bitrate conversion, probe, scale-filter construction,
transcoder invocation.  An environment step with `Ok = false` models the
corresponding awaited call throwing, which the catch turns into a
`{success:false}` result. -/
def saveFileBody (args : SaveArgs) (env : SaveEnv) (probe : ProbeOutcome) (fs0 : FS) : SaveOutcome :=
  let emptyFail : SaveOutcome :=
    { result := { success := false,
                  error := some "No recording data received. The recording may be empty." },
      fs := fs0, transcoderCmd := none, tempPathAssigned := false, logged := none }
  match args.buffer with
  | none => emptyFail
  | some bts =>
    if bts.length = 0 then emptyFail
    else if env.writeOk then
      let fs1 : FS := { fs0 with temp := some bts }
      if env.statOk then
        if (fs1.temp.getD []).length = 0 then
          { result := { success := false, error := some "Recording file is empty." },
            fs := fs1, transcoderCmd := none, tempPathAssigned := true, logged := none }
        else if args.format = "webm" then
          if env.copyOk then
            { result := { success := true, error := none },
              fs := { fs1 with dest := fs1.temp },
              transcoderCmd := none, tempPathAssigned := true, logged := none }
          else
            { result := { success := false, error := some "copyFile failed" },
              fs := fs1, transcoderCmd := none, tempPathAssigned := true, logged := none }
        else
          let dims := parseResolution args.resolution
          let videoBitrate : Int :=
            match args.bitrate with
            | some b => if b = 0 then 5000 else Int.fdiv b 1000
            | none => 5000
          let info := getVideoInfo probe
          let inputWidth := jsOr info.width 1920
          let inputHeight := jsOr info.height 1080
          let wS := jsNumStr dims.1
          let hS := jsNumStr dims.2
          let scaleFilter :=
            if args.preserveAspect then
              "scale=" ++ wS ++ ":" ++ hS ++
                ":force_original_aspect_ratio=decrease,pad=" ++ wS ++ ":" ++ hS ++
                ":(ow-iw)/2:(oh-ih)/2"
            else
              "scale=" ++ wS ++ ":" ++ hS
          let cmd : FfmpegCmd :=
            { inputOpts := ["-fflags", "+genpts"],
              videoBitrate := videoBitrate,
              videoFilters := scaleFilter,
              outputPath := args.filePath,
              outputOpts := ["-c:v", "libx264", "-preset", "fast", "-crf", "22",
                             "-pix_fmt", "yuv420p", "-movflags", "+faststart"] }
          if env.ffmpegOk then
            { result := { success := true, error := none },
              fs := { fs1 with dest := env.transcodedDest },
              transcoderCmd := some cmd, tempPathAssigned := true,
              logged := some (inputWidth, inputHeight) }
          else
            { result := { success := false, error := some "ffmpeg failed" },
              fs := { fs1 with dest := env.transcodedDest },
              transcoderCmd := some cmd, tempPathAssigned := true,
              logged := some (inputWidth, inputHeight) }
      else
        { result := { success := false, error := some "stat failed" },
          fs := fs1, transcoderCmd := none, tempPathAssigned := true, logged := none }
    else
      { result := { success := false, error := some "writeFile failed" },
        fs := fs0, transcoderCmd := none, tempPathAssigned := true, logged := none }

/-- The full `save-file` handler: the try/catch body followed by the
`finally` block (main file lines 209-219), which attempts `fs.unlink` on
the temp artifact whenever `tempPath` was assigned; an unlink failure is
only logged, so it changes neither the result nor anything but the temp
slot. -/
def saveFile (args : SaveArgs) (env : SaveEnv) (probe : ProbeOutcome) (fs0 : FS) : SaveOutcome :=
  let b := saveFileBody args env probe fs0
  if b.tempPathAssigned then
    { b with fs := { b.fs with temp := if env.unlinkOk then none else b.fs.temp } }
  else b

/-! ## The `GET_SCREEN_RESOLUTIONS` handler (main file lines 17-68) -/

/-- One physical display as the handler reads it: the bounds dimensions
(the destructuring `display.bounds || display.size || display` lands on
`bounds` for a real display) and the scale factor, absent or zero falling
back to 1 via `display.scaleFactor || 1`.  Scale factors may be
fractional (1.25, 1.5, ...) yet are always exact small rationals, carried
here as a numerator/denominator pair with positive denominator; the only
arithmetic on them is `Math.round`, computed exactly below. -/
structure Display where
  boundsWidth : Int
  boundsHeight : Int
  scaleFactor : Option (Int × Int)
deriving DecidableEq

/-- JavaScript `Math.round(w * (num/den))`, i.e. `⌊w*num/den + 1/2⌋`,
computed in integer arithmetic as `⌊(2*w*num + den) / (2*den)⌋`. -/
def jsRoundMul (w num den : Int) : Int :=
  Int.fdiv (2 * w * num + den) (2 * den)

/-- JavaScript `x || d` on a possibly-absent scale factor (0 is falsy). -/
def jsOrScale (x : Option (Int × Int)) (d : Int × Int) : Int × Int :=
  match x with
  | none => d
  | some p => if p.1 = 0 then d else p

/-- The `scaledWidth`/`scaledHeight` computation (main file lines 27-28):
`Math.round(width * scaleFactor)` and likewise for the height.  In the
source these values are only interpolated into a `console.log` line. -/
def scaledDims (d : Display) : Int × Int :=
  let sf := jsOrScale d.scaleFactor (1, 1)
  (jsRoundMul d.boundsWidth sf.1 sf.2, jsRoundMul d.boundsHeight sf.1 sf.2)

/-- The object the handler returns per display (main file lines 53-59). -/
structure ScreenResolution where
  width : Int
  height : Int
  scaleFactor : Int × Int
  aspect : String
  label : String
deriving DecidableEq

/-- The per-display body of the `GET_SCREEN_RESOLUTIONS` map (main file
lines 22-60): classify the aspect ratio from the UNSCALED bounds, force
the unscaled height even, and return the unscaled dimensions; the scaled
dimensions of `scaledDims` are computed but only logged. -/
def displayResolutionEntry (d : Display) : ScreenResolution :=
  let width := d.boundsWidth
  let height := d.boundsHeight
  let sf := jsOrScale d.scaleFactor (1, 1)
  let aspect := aspectLabel width height
  let evenH := evenHeight height
  { width := width, height := evenH, scaleFactor := sf, aspect := aspect,
    label := toString width ++ "×" ++ toString evenH ++ " (" ++ aspect ++ ") - Native" }

/-- The full handler: one entry per display (the surrounding try/catch
returns `[]` only if the platform display enumeration itself throws,
which is outside this model's inputs). -/
def listDisplayResolutions (displays : List Display) : List ScreenResolution :=
  displays.map displayResolutionEntry

/-! ## The `start-recording` IPC handler (renderer-bundle main process,
lines 659-737 of the concatenated App.tsx source) -/

/-- The main process module state the handler touches: the global
`isRecording` single-flight flag and the global `recordingPath`. -/
structure MainState where
  isRecording : Bool
  recordingPath : String
deriving DecidableEq

/-- An IPC `{success, message}` result. -/
structure IpcResult where
  success : Bool
  message : String
deriving DecidableEq

/-- The `start-recording` handler: the very first statement is the
single-flight guard `if (isRecording) return {success:false, message:
"Already recording"}`, reached before any assignment, so a rejected start
mutates nothing.  Otherwise `recordingPath` is assigned, the metadata
file is written (`metaWriteOk = false` models that write throwing, caught
to a failure result with `isRecording` still false), the ffmpeg capture
process is spawned and `isRecording` is set. -/
def startRecordingHandler (st : MainState) (timestamp : String) (metaWriteOk : Bool) :
    MainState × IpcResult :=
  if st.isRecording then
    (st, { success := false, message := "Already recording" })
  else
    let newPath := "recordings/recording-" ++ timestamp
    if metaWriteOk then
      ({ isRecording := true, recordingPath := newPath },
       { success := true, message := "Recording started" })
    else
      ({ isRecording := st.isRecording, recordingPath := newPath },
       { success := false, message := "Failed to start recording" })

/-! ## Theorems -/

/-- Claim C5 as stated is false: "a malformed string yields the default
1920×1080" fails for the malformed resolution string "x", which splits at
'x' into exactly two empty fields, so the length-2 guard passes and
`parseInt` of each empty field yields NaN — the handler proceeds with
NaN×NaN dimensions instead of the default. -/
theorem c5_malformed_counterexample :
    parseResolution (some "x") = (none, none) ∧
    parseResolution (some "x") ≠ (some 1920, some 1080) := by
  constructor
  · rfl
  · decide

/-- Claim C5, amended: an absent resolution, or one that does not split
at 'x' into exactly two fields, yields the default 1920×1080 (a two-field
string with non-numeric fields instead yields NaN dimensions); the
odd-height example "1920x1081" normalizes to 1920×1080; and for every
positive height the even-height normalization yields an even number less
than or equal to the original height. -/
theorem c5_resolution_normalization :
    parseResolution none = (some 1920, some 1080) ∧
    (∀ r : String, (jsSplit 'x' r.data).length ≠ 2 →
      parseResolution (some r) = (some 1920, some 1080)) ∧
    parseResolution (some "1920x1081") = (some 1920, some 1080) ∧
    (∀ w h : Int, 0 < w → 0 < h → evenHeight h % 2 = 0 ∧ evenHeight h ≤ h) :=
by
  refine ⟨rfl, ?_, by decide, ?_⟩
  · intro r hlen
    simp only [parseResolution]
    by_cases he : r = ""
    · rw [if_pos he]
    · rw [if_neg he]
      rcases hs : jsSplit 'x' r.data with _ | ⟨a, _ | ⟨b, _ | _⟩⟩
      · rfl
      · rfl
      · exact absurd (by rw [hs]; rfl) hlen
      · rfl
  · intro w h hw hh
    unfold evenHeight
    by_cases hp : h % 2 = 0
    · rw [if_pos hp]
      exact ⟨hp, le_refl h⟩
    · rw [if_neg hp]
      constructor <;> omega

/-- Witness for the amended C5 at concrete inputs: the one-field string
"1920" falls back to the default, and 1081 is normalized to the even
1080 ≤ 1081. -/
theorem c5_resolution_normalization_witness :
    parseResolution (some "1920") = (some 1920, some 1080) ∧
    evenHeight 1081 % 2 = 0 ∧ evenHeight 1081 ≤ 1081 := by
  have h4 := c5_resolution_normalization.2.2.2 1 1081 (by decide) (by decide)
  exact ⟨c5_resolution_normalization.2.1 "1920" (by decide), h4.1, h4.2⟩

/-- Helper: a positive pair has a nonzero GCD cast to `Int`. -/
theorem gcd_int_ne_zero (w h : Int) (hw : 0 < w) :
    ¬ (Int.ofNat (Nat.gcd w.natAbs h.natAbs) = 0) := by
  intro hc
  have h0 : Nat.gcd w.natAbs h.natAbs = 0 := Int.ofNat_eq_zero.mp hc
  have hw0 : w.natAbs = 0 := (Nat.gcd_eq_zero_iff.mp h0).1
  have : w = 0 := Int.natAbs_eq_zero.mp hw0
  omega

/-- Claim C6: the `start-recording` handler's first statement is the
single-flight guard, so starting while a recording is active returns
`{success:false, message:"Already recording"}` and leaves the whole
session state (the recording path and everything else the handler could
touch) exactly as it was. -/
theorem c6_single_flight (st : MainState) (ts : String) (metaWriteOk : Bool)
    (h : st.isRecording = true) :
    startRecordingHandler st ts metaWriteOk =
      (st, { success := false, message := "Already recording" }) := by
  unfold startRecordingHandler
  simp [h]

/-- Witness for C6 at a concrete active state. -/
theorem c6_single_flight_witness :
    startRecordingHandler ⟨true, "p"⟩ "t" true =
      (⟨true, "p"⟩, { success := false, message := "Already recording" }) :=
  c6_single_flight ⟨true, "p"⟩ "t" true rfl

/-- Claim C7: a width/height ratio in the tolerance band of one of the
four standard ratios gets that standard label; otherwise the label is the
GCD-reduced fraction, except that a reduction where either side exceeds
100 falls back to "16:9"; in particular 1920×1080 labels "16:9" and
1280×1024 labels "5:4".  The bands compare the ratio against 1.7/1.8,
1.3/1.4, 1.5/1.6, 2.3/2.4, written here cross-multiplied. -/
theorem c7_aspect_labels :
    aspectLabel 1920 1080 = "16:9" ∧
    aspectLabel 1280 1024 = "5:4" ∧
    (∀ w h : Int, 0 < w → 0 < h →
      ((17 * h < 10 * w ∧ 10 * w < 18 * h) → aspectLabel w h = "16:9") ∧
      ((13 * h < 10 * w ∧ 10 * w < 14 * h) → aspectLabel w h = "4:3") ∧
      ((15 * h < 10 * w ∧ 10 * w < 16 * h) → aspectLabel w h = "3:2") ∧
      ((23 * h < 10 * w ∧ 10 * w < 24 * h) → aspectLabel w h = "21:9") ∧
      (¬(17 * h < 10 * w ∧ 10 * w < 18 * h) → ¬(13 * h < 10 * w ∧ 10 * w < 14 * h) →
       ¬(15 * h < 10 * w ∧ 10 * w < 16 * h) → ¬(23 * h < 10 * w ∧ 10 * w < 24 * h) →
        aspectLabel w h = calculateAspect w h ∧
        ((w / Int.ofNat (Nat.gcd w.natAbs h.natAbs) ≤ 100 ∧
            h / Int.ofNat (Nat.gcd w.natAbs h.natAbs) ≤ 100 →
          calculateAspect w h =
            toString (w / Int.ofNat (Nat.gcd w.natAbs h.natAbs)) ++ ":" ++
              toString (h / Int.ofNat (Nat.gcd w.natAbs h.natAbs))) ∧
         (100 < w / Int.ofNat (Nat.gcd w.natAbs h.natAbs) ∨
            100 < h / Int.ofNat (Nat.gcd w.natAbs h.natAbs) →
          calculateAspect w h = "16:9")))) := by
  refine ⟨by decide, by decide, ?_⟩
  intro w h hw hh
  have hg : ¬ (Int.ofNat (Nat.gcd w.natAbs h.natAbs) = 0) := gcd_int_ne_zero w h hw
  refine ⟨?_, ?_, ?_, ?_, ?_⟩
  · rintro ⟨h1, h2⟩
    unfold aspectLabel
    rw [if_pos ⟨h1, h2⟩]
  · rintro ⟨h1, h2⟩
    unfold aspectLabel
    rw [if_neg (by omega), if_pos ⟨h1, h2⟩]
  · rintro ⟨h1, h2⟩
    unfold aspectLabel
    rw [if_neg (by omega), if_neg (by omega), if_pos ⟨h1, h2⟩]
  · rintro ⟨h1, h2⟩
    unfold aspectLabel
    rw [if_neg (by omega), if_neg (by omega), if_neg (by omega), if_pos ⟨h1, h2⟩]
  · intro hn1 hn2 hn3 hn4
    refine ⟨?_, ?_, ?_⟩
    · unfold aspectLabel
      rw [if_neg hn1, if_neg hn2, if_neg hn3, if_neg hn4]
    · rintro ⟨hle1, hle2⟩
      unfold calculateAspect
      rw [if_neg hg, if_neg (by omega)]
    · intro hgt
      unfold calculateAspect
      rw [if_neg hg, if_pos hgt]

/-- Witness for C7's banded case at 1600×1200 (ratio 4:3, inside the
1.3–1.4 band). -/
theorem c7_aspect_labels_witness :
    aspectLabel 1600 1200 = "4:3" :=
  (c7_aspect_labels.2.2 1600 1200 (by decide) (by decide)).2.1 ⟨by decide, by decide⟩

/-- Claim C8 as stated is false: for a display with bounds 1920×1080 and
scale factor 2, the handler computes scaled dimensions 3840×2160 but the
returned Resolution reports the unscaled width 1920 (and unscaled even
height 1080) — the scaled values are only logged. -/
theorem c8_scaled_counterexample :
    List.map ScreenResolution.width (listDisplayResolutions [⟨1920, 1080, some (2, 1)⟩]) =
      [1920] ∧
    List.map ScreenResolution.height (listDisplayResolutions [⟨1920, 1080, some (2, 1)⟩]) =
      [1080] ∧
    scaledDims ⟨1920, 1080, some (2, 1)⟩ = (3840, 2160) ∧
    (1920 : Int) ≠ 3840 := by
  refine ⟨rfl, rfl, by decide, by decide⟩

/-- Claim C8, amended: the handler computes `round(size * scaleFactor)`
per display but only logs it; the returned entries carry the unscaled
bounds width and the even-forced unscaled bounds height. -/
theorem c8_returned_dimensions (ds : List Display) :
    List.map ScreenResolution.width (listDisplayResolutions ds) =
      List.map Display.boundsWidth ds ∧
    List.map ScreenResolution.height (listDisplayResolutions ds) =
      List.map (fun d => evenHeight (Display.boundsHeight d)) ds := by
  unfold listDisplayResolutions
  constructor <;> (rw [List.map_map]; rfl)

/-- Claim C1: with a non-empty buffer, a target format equal to the
recorder's native "webm" container, and the write/stat/copy I/O steps
succeeding, `save-file` reports success, the destination holds exactly
the input bytes, and the external transcoder is never invoked. -/
theorem c1_webm_fast_path (args : SaveArgs) (env : SaveEnv) (probe : ProbeOutcome) (fs0 : FS)
    (bts : List Nat) (hb : args.buffer = some bts) (hne : bts ≠ [])
    (hw : env.writeOk = true) (hst : env.statOk = true) (hc : env.copyOk = true)
    (hf : args.format = "webm") :
    (saveFile args env probe fs0).result = { success := true, error := none } ∧
    (saveFile args env probe fs0).fs.dest = some bts ∧
    (saveFile args env probe fs0).transcoderCmd = none := by
  have hlen : ¬ bts.length = 0 := by simpa using hne
  unfold saveFile saveFileBody
  rw [hb]
  simp [hlen, hw, hst, hc, hf]

/-- Witness for C1 at a concrete three-byte recording. -/
theorem c1_webm_fast_path_witness :
    (saveFile ⟨"out.webm", some [1, 2, 3], "webm", none, none, true⟩
        ⟨true, true, true, true, none, true⟩ ProbeOutcome.probeErr ⟨none, none⟩).result =
      { success := true, error := none } ∧
    (saveFile ⟨"out.webm", some [1, 2, 3], "webm", none, none, true⟩
        ⟨true, true, true, true, none, true⟩ ProbeOutcome.probeErr ⟨none, none⟩).fs.dest =
      some [1, 2, 3] ∧
    (saveFile ⟨"out.webm", some [1, 2, 3], "webm", none, none, true⟩
        ⟨true, true, true, true, none, true⟩ ProbeOutcome.probeErr
        ⟨none, none⟩).transcoderCmd = none :=
  c1_webm_fast_path _ _ _ _ [1, 2, 3] rfl (by decide) rfl rfl rfl rfl

/-- Claim C3: an absent or zero-length buffer makes `save-file` fail fast
with the descriptive error, leaving the file system untouched (no
destination file, no temp file), never invoking the transcoder, and
without even assigning a temp path. -/
theorem c3_empty_buffer (args : SaveArgs) (env : SaveEnv) (probe : ProbeOutcome) (fs0 : FS)
    (h : args.buffer = none ∨ args.buffer = some []) :
    saveFile args env probe fs0 =
      { result := { success := false,
                    error := some "No recording data received. The recording may be empty." },
        fs := fs0, transcoderCmd := none, tempPathAssigned := false, logged := none } := by
  unfold saveFile saveFileBody
  rcases h with h | h <;> rw [h] <;> rfl

/-- Witness for C3 with an absent buffer. -/
theorem c3_empty_buffer_witness :
    saveFile ⟨"out.mp4", none, "mp4", none, none, true⟩
        ⟨true, true, true, true, none, true⟩ ProbeOutcome.probeErr ⟨none, none⟩ =
      { result := { success := false,
                    error := some "No recording data received. The recording may be empty." },
        fs := ⟨none, none⟩, transcoderCmd := none, tempPathAssigned := false,
        logged := none } :=
  c3_empty_buffer _ _ _ _ (Or.inl rfl)

/-- Claim C4: on the transcode path with normalized target dimensions
`w`×`h`, the video filter is exactly the letterboxed fit filter when
aspect preservation is on, and exactly the direct stretch filter
`scale=w:h` when it is off. -/
theorem c4_scale_filter (args : SaveArgs) (env : SaveEnv) (probe : ProbeOutcome) (fs0 : FS)
    (bts : List Nat) (w h : Int)
    (hb : args.buffer = some bts) (hne : bts ≠ [])
    (hw : env.writeOk = true) (hst : env.statOk = true)
    (hf : ¬ args.format = "webm")
    (hres : parseResolution args.resolution = (some w, some h)) :
    Option.map FfmpegCmd.videoFilters (saveFile args env probe fs0).transcoderCmd =
      some (if args.preserveAspect then
              "scale=" ++ toString w ++ ":" ++ toString h ++
                ":force_original_aspect_ratio=decrease,pad=" ++ toString w ++ ":" ++
                toString h ++ ":(ow-iw)/2:(oh-ih)/2"
            else "scale=" ++ toString w ++ ":" ++ toString h) := by
  have hlen : ¬ bts.length = 0 := by simpa using hne
  unfold saveFile saveFileBody
  rw [hb]
  cases hok : env.ffmpegOk <;> simp [hlen, hw, hst, hf, hok, hres, jsNumStr]

/-- Witness for C4: target "1920x1080" without aspect preservation gives
the direct stretch filter `scale=1920:1080`, no padding terms. -/
theorem c4_scale_filter_witness :
    Option.map FfmpegCmd.videoFilters
        (saveFile ⟨"out.mp4", some [1], "mp4", some "1920x1080", some 5000000, false⟩
          ⟨true, true, true, true, none, true⟩ ProbeOutcome.probeErr
          ⟨none, none⟩).transcoderCmd =
      some "scale=1920:1080" := by
  have h := c4_scale_filter ⟨"out.mp4", some [1], "mp4", some "1920x1080", some 5000000, false⟩
    ⟨true, true, true, true, none, true⟩ ProbeOutcome.probeErr ⟨none, none⟩
    [1] 1920 1080 rfl (by decide) rfl rfl (by decide) (by decide)
  simpa using h

/-- Claim C9: all probe failure modes (ffprobe error, metadata parse
exception, no video stream) make `getVideoInfo` RESOLVE with the default
1920×1080 instead of rejecting, and such a save still reaches the
transcoder, its outcome decided by the transcoder alone. -/
theorem c9_probe_nonfatal (args : SaveArgs) (env : SaveEnv) (fs0 : FS) (bts : List Nat)
    (p : ProbeOutcome)
    (hb : args.buffer = some bts) (hne : bts ≠ [])
    (hw : env.writeOk = true) (hst : env.statOk = true)
    (hf : ¬ args.format = "webm")
    (hp : p = ProbeOutcome.probeErr ∨ p = ProbeOutcome.parseErr ∨
      ∃ ss, p = ProbeOutcome.metadata ss ∧
        List.find? (fun s => s.codecType = "video") ss = none) :
    getVideoInfo p = { width := some 1920, height := some 1080, displayAspect := none } ∧
    (saveFile args env p fs0).transcoderCmd ≠ none ∧
    (saveFile args env p fs0).result.success = env.ffmpegOk := by
  have hlen : ¬ bts.length = 0 := by simpa using hne
  refine ⟨?_, ?_⟩
  · rcases hp with h | h | ⟨ss, h, hfind⟩ <;> subst h
    · rfl
    · rfl
    · simp only [getVideoInfo]
      rw [hfind]
  · unfold saveFile saveFileBody
    rw [hb]
    cases hok : env.ffmpegOk <;> simp [hlen, hw, hst, hf, hok]

/-- Witness for C9: a probe error on an otherwise successful mp4 save. -/
theorem c9_probe_nonfatal_witness :
    getVideoInfo ProbeOutcome.probeErr =
      { width := some 1920, height := some 1080, displayAspect := none } ∧
    (saveFile ⟨"out.mp4", some [1], "mp4", some "1920x1080", some 5000000, true⟩
        ⟨true, true, true, true, some [9], true⟩ ProbeOutcome.probeErr
        ⟨none, none⟩).transcoderCmd ≠ none ∧
    (saveFile ⟨"out.mp4", some [1], "mp4", some "1920x1080", some 5000000, true⟩
        ⟨true, true, true, true, some [9], true⟩ ProbeOutcome.probeErr
        ⟨none, none⟩).result.success = true :=
  c9_probe_nonfatal ⟨"out.mp4", some [1], "mp4", some "1920x1080", some 5000000, true⟩
    ⟨true, true, true, true, some [9], true⟩ ⟨none, none⟩ [1] ProbeOutcome.probeErr
    rfl (by decide) rfl rfl (by decide) (Or.inl rfl)

/-- Helper: if the try-block never assigned a temp path (only the
empty-buffer fast failure), the file system is untouched. -/
theorem saveFileBody_unassigned (args : SaveArgs) (env : SaveEnv) (probe : ProbeOutcome)
    (fs0 : FS) :
    (saveFileBody args env probe fs0).tempPathAssigned = false →
    (saveFileBody args env probe fs0).fs = fs0 := by
  unfold saveFileBody
  rcases args.buffer with _ | bts
  · intro
    rfl
  · dsimp only
    repeat' split
    all_goals simp

/-- Claim C2: starting from a fresh temp path (no pre-existing temp
file), every save call — success, reported failure, or an exception at
any step — ends with the temp artifact gone whenever the `finally`
unlink succeeds, and the unlink outcome never changes the call's result:
two environments differing only in `unlinkOk` give identical results. -/
theorem c2_temp_cleanup (args : SaveArgs) (env : SaveEnv) (probe : ProbeOutcome) (fs0 : FS)
    (h0 : fs0.temp = none) :
    (env.unlinkOk = true → (saveFile args env probe fs0).fs.temp = none) ∧
    (∀ env' : SaveEnv, env'.writeOk = env.writeOk → env'.statOk = env.statOk →
      env'.copyOk = env.copyOk → env'.ffmpegOk = env.ffmpegOk →
      env'.transcodedDest = env.transcodedDest →
      (saveFile args env' probe fs0).result = (saveFile args env probe fs0).result) := by
  constructor
  · intro hu
    unfold saveFile
    dsimp only
    cases hta : (saveFileBody args env probe fs0).tempPathAssigned with
    | false =>
      have hfs := saveFileBody_unassigned args env probe fs0 hta
      simp [hta, hfs, h0]
    | true =>
      simp [hta, hu]
  · intro env' hw hs hc hf htd
    obtain ⟨w, s, c, f, td, u⟩ := env
    obtain ⟨w', s', c', f', td', u'⟩ := env'
    dsimp only at hw hs hc hf htd
    subst hw hs hc hf htd
    have hb : saveFileBody args ⟨w', s', c', f', td', u'⟩ probe fs0 =
        saveFileBody args ⟨w', s', c', f', td', u⟩ probe fs0 := by
      unfold saveFileBody
      rcases args.buffer with _ | bts
      · rfl
      · dsimp only
    unfold saveFile
    dsimp only
    rw [hb]
    split
    all_goals rfl

/-- Witness for C2: a concrete webm save ends with the temp file gone,
and an unlink failure leaves the result unchanged. -/
theorem c2_temp_cleanup_witness :
    (saveFile ⟨"out.webm", some [1], "webm", none, none, true⟩
        ⟨true, true, true, true, none, true⟩ ProbeOutcome.probeErr ⟨none, none⟩).fs.temp =
      none ∧
    (saveFile ⟨"out.webm", some [1], "webm", none, none, true⟩
          ⟨true, true, true, true, none, false⟩ ProbeOutcome.probeErr ⟨none, none⟩).result =
      (saveFile ⟨"out.webm", some [1], "webm", none, none, true⟩
          ⟨true, true, true, true, none, true⟩ ProbeOutcome.probeErr ⟨none, none⟩).result :=
  ⟨(c2_temp_cleanup ⟨"out.webm", some [1], "webm", none, none, true⟩
      ⟨true, true, true, true, none, true⟩ ProbeOutcome.probeErr ⟨none, none⟩ rfl).1 rfl,
   (c2_temp_cleanup ⟨"out.webm", some [1], "webm", none, none, true⟩
      ⟨true, true, true, true, none, true⟩ ProbeOutcome.probeErr ⟨none, none⟩ rfl).2
     ⟨true, true, true, true, none, false⟩ rfl rfl rfl rfl rfl⟩

/-- Helper: the try-block's outcome components other than the logged
probe dimensions do not depend on the probe outcome. -/
theorem saveFileBody_probe_blind (args : SaveArgs) (env : SaveEnv) (p₁ p₂ : ProbeOutcome)
    (fs0 : FS) :
    (saveFileBody args env p₁ fs0).result = (saveFileBody args env p₂ fs0).result ∧
    (saveFileBody args env p₁ fs0).fs = (saveFileBody args env p₂ fs0).fs ∧
    (saveFileBody args env p₁ fs0).transcoderCmd =
      (saveFileBody args env p₂ fs0).transcoderCmd ∧
    (saveFileBody args env p₁ fs0).tempPathAssigned =
      (saveFileBody args env p₂ fs0).tempPathAssigned := by
  unfold saveFileBody
  rcases args.buffer with _ | bts
  · exact ⟨rfl, rfl, rfl, rfl⟩
  · dsimp only
    repeat' split
    all_goals exact ⟨rfl, rfl, rfl, rfl⟩

/-- Claim C10: the transcoder invocation is independent of the probe
result — two saves with identical arguments and I/O environment but any
two probe outcomes produce the same result, the same final file-system
state, and exactly the same ffmpeg command; the probed dimensions feed
only the log. -/
theorem c10_probe_independence (args : SaveArgs) (env : SaveEnv) (p₁ p₂ : ProbeOutcome)
    (fs0 : FS) :
    (saveFile args env p₁ fs0).result = (saveFile args env p₂ fs0).result ∧
    (saveFile args env p₁ fs0).fs = (saveFile args env p₂ fs0).fs ∧
    (saveFile args env p₁ fs0).transcoderCmd = (saveFile args env p₂ fs0).transcoderCmd ∧
    (saveFile args env p₁ fs0).tempPathAssigned =
      (saveFile args env p₂ fs0).tempPathAssigned := by
  obtain ⟨hr, hfs, hcmd, ht⟩ := saveFileBody_probe_blind args env p₁ p₂ fs0
  unfold saveFile
  dsimp only
  cases hta : (saveFileBody args env p₁ fs0).tempPathAssigned with
  | false =>
    have hta₂ : (saveFileBody args env p₂ fs0).tempPathAssigned = false := by
      rw [← ht]
      exact hta
    refine ⟨?_, ?_, ?_, ?_⟩ <;> simp [hta, hta₂, hr, hfs, hcmd, ht]
  | true =>
    have hta₂ : (saveFileBody args env p₂ fs0).tempPathAssigned = true := by
      rw [← ht]
      exact hta
    refine ⟨?_, ?_, ?_, ?_⟩ <;> simp [hta, hta₂, hr, hfs, hcmd, ht]

end ScreenRecorder
